import Mathlib

/-!
Shallow embedding of the runtime core of `nextjs-typesafe-routing`:
path-parameter substitution, query-string assembly, schema-validation
dispatch, registry lookups, and the typed pathname helpers.

JavaScript strings are modelled as Lean `String`; the JS helpers used by
the source (`String.prototype.replace` with a string pattern, `includes`,
`startsWith`, `endsWith`, `split`, `URLSearchParams` serialization) are
embedded below with their JS semantics.  Zod schemas are external
collaborators and are modelled as opaque parse functions
`JSValue → Except String JSValue` (success with the parsed value, or a
structured error), matching the contract the source relies on
(`parse` throws on the same inputs on which `safeParse` fails).
Thrown exceptions are modelled with `Except`; `console.warn` and
`console.error` output is collected in a `Diag` list.
-/

namespace NTR

/-- Model of a JavaScript runtime value as far as this library observes it:
the scalar types admitted for params and query values, plus `null`,
`undefined` and plain objects. -/
inductive JSValue where
  | str (s : String)
  | num (n : Int)
  | boolean (b : Bool)
  | null
  | undef
  | obj (fields : List (String × JSValue))

/-- JS `String(value)` coercion for the values above (integers only for
numbers, which JS stringifies in decimal, locale-independently). -/
def jsToString : JSValue → String
  | .str s => s
  | .num n => toString n
  | .boolean true => "true"
  | .boolean false => "false"
  | .null => "null"
  | .undef => "undefined"
  | .obj _ => "[object Object]"

/-- Bool test used when embedding the JS `value !== undefined` checks. -/
def isUndef : JSValue → Bool
  | .undef => true
  | _ => false

/-- External schema collaborator (zod): given an unknown value, return the
parsed value or a structured error. -/
def Schema : Type := JSValue → Except String JSValue

/-- `RouteDefinition` from `src/core/types.ts`: a path plus optional params
and query schemas. -/
structure RouteDef where
  path : String
  params : Option Schema := none
  query : Option Schema := none

/-- `RouteConfig` from `src/types.ts` (routerParser side): a path plus
optional `paramsSchema` and `searchSchema`. -/
structure RouteConfig where
  path : String
  paramsSchema : Option Schema := none
  searchSchema : Option Schema := none

/-- `RouteNode` built by `buildRouteTree` in `src/routerParser.ts`. -/
structure RouteNode where
  id : String
  path : String
  paramsSchema : Option Schema := none
  searchSchema : Option Schema := none

/-- `buildRouteTree` from `src/routerParser.ts`: each route maps to a node
whose `id` is its path. -/
def buildRouteTree (routes : List RouteConfig) : List RouteNode :=
  routes.map fun r =>
    { id := r.path, path := r.path,
      paramsSchema := r.paramsSchema, searchSchema := r.searchSchema }

/-! ### JS string helpers -/

/-- JS `s.replace(pat, rep)` with a string pattern: replace only the FIRST
occurrence of `pat`; if `pat` does not occur, return `s` unchanged.
An empty pattern matches at index 0. -/
def replaceFirstAux (pat rep : List Char) : List Char → List Char
  | [] => if pat.isEmpty then rep else []
  | c :: rest =>
    if pat.isPrefixOf (c :: rest) then rep ++ (c :: rest).drop pat.length
    else c :: replaceFirstAux pat rep rest

/-- JS `String.prototype.replace` with a plain string pattern
(first occurrence only). -/
def jsReplaceFirst (s pat rep : String) : String :=
  ⟨replaceFirstAux pat.data rep.data s.data⟩

/-- Helper for JS `s.includes(pat)`. -/
def jsIncludesAux (pat : List Char) : List Char → Bool
  | [] => pat.isPrefixOf ([] : List Char)
  | c :: rest => pat.isPrefixOf (c :: rest) || jsIncludesAux pat rest

/-- JS `s.includes(pat)`: substring containment. -/
def jsIncludes (s pat : String) : Bool :=
  jsIncludesAux pat.data s.data

/-- JS `s.startsWith(pre)`. -/
def jsStartsWith (s pre : String) : Bool :=
  pre.data.isPrefixOf s.data

/-- JS `s.endsWith(suf)`. -/
def jsEndsWith (s suf : String) : Bool :=
  suf.data.isSuffixOf s.data

/-- Target of a URL-generation call in `src/core/registry.ts`
(`registry generateUrl` accepts `RouteDefinition | string`). -/
inductive RouteOrPath where
  | route (r : RouteDef)
  | path (p : String)

/-- `hasParams` from `src/core/registry.ts`: take the path of a route or a
raw path string and test `path.includes('/:')`. -/
def hasParams : RouteOrPath → Bool
  | .route r => jsIncludes r.path "/:"
  | .path p => jsIncludes p "/:"

/-- JS `s.split('/')` on the character level (keeps empty segments). -/
def splitOnSlash : List Char → List (List Char)
  | [] => [[]]
  | c :: rest =>
    let r := splitOnSlash rest
    if c = '/' then [] :: r
    else
      match r with
      | [] => [[c]]
      | seg :: segs => (c :: seg) :: segs

/-- Declared parameter names of a path template, as computed by the runtime
check in `defineRoute` (`src/core/route-builder.ts`): split on `/`, keep
the segments starting with `:`, drop the marker. -/
def pathParamNames (path : String) : List String :=
  (splitOnSlash path.data).filterMap fun seg =>
    match seg with
    | ':' :: rest => some ⟨rest⟩
    | _ => none

/-! ### Parameter substitution and query-string assembly -/

/-- The parameter-substitution step shared by `generateUrl`
(`src/core/route-builder.ts` lines 55-61), `getPath`
(`src/routerParser.ts` lines 163-168) and the registry `generateUrl`:
`Object.entries(params).reduce((path, [key, value]) => path.replace(
":" + key, String(value)), path)`; absent params leave the path as is. -/
def substitutePath (path : String) : Option (List (String × JSValue)) → String
  | none => path
  | some ps =>
    ps.foldl (fun acc kv => jsReplaceFirst acc (":" ++ kv.1) (jsToString kv.2)) path

/-- Characters the `application/x-www-form-urlencoded` serializer leaves
unescaped (WHATWG: ASCII alphanumerics and `*`, `-`, `.`, `_`). -/
def unreservedChar (c : Char) : Bool :=
  ('A' ≤ c && c ≤ 'Z') || ('a' ≤ c && c ≤ 'z') || ('0' ≤ c && c ≤ '9') ||
    c = '*' || c = '-' || c = '.' || c = '_'

/-- Upper-case hexadecimal digit of a nibble. -/
def hexDigit : Nat → Char
  | 0 => '0' | 1 => '1' | 2 => '2' | 3 => '3' | 4 => '4'
  | 5 => '5' | 6 => '6' | 7 => '7' | 8 => '8' | 9 => '9'
  | 10 => 'A' | 11 => 'B' | 12 => 'C' | 13 => 'D' | 14 => 'E' | 15 => 'F'
  | _ => '0'

/-- UTF-8 bytes of a code point. -/
def utf8Bytes (c : Char) : List Nat :=
  let n := c.toNat
  if n < 0x80 then [n]
  else if n < 0x800 then [0xC0 + n / 64, 0x80 + n % 64]
  else if n < 0x10000 then
    [0xE0 + n / 4096, 0x80 + n / 64 % 64, 0x80 + n % 64]
  else
    [0xF0 + n / 262144, 0x80 + n / 4096 % 64, 0x80 + n / 64 % 64, 0x80 + n % 64]

/-- Percent-escape of one byte. -/
def percentByte (b : Nat) : List Char :=
  ['%', hexDigit (b / 16), hexDigit (b % 16)]

/-- `URLSearchParams` escaping of one character. -/
def formEncodeChar (c : Char) : List Char :=
  if unreservedChar c then [c]
  else if c = ' ' then ['+']
  else (utf8Bytes c).flatMap percentByte

/-- `URLSearchParams` escaping of a string. -/
def formEncode (s : String) : String :=
  ⟨s.data.flatMap formEncodeChar⟩

/-- One `key=value` pair of the serialized query string. -/
def serializePair (kv : String × String) : String :=
  formEncode kv.1 ++ "=" ++ formEncode kv.2

/-- `&`-join of `URLSearchParams.toString`. -/
def joinAmp : List String → String
  | [] => ""
  | [s] => s
  | s :: rest => s ++ "&" ++ joinAmp rest

/-- The `forEach`/`append` loop of every query-assembly site: keep the
entries whose value is not `undefined`, coercing values with `String(...)`. -/
def definedQueryPairs (q : List (String × JSValue)) : List (String × String) :=
  q.filterMap fun kv =>
    match kv.2 with
    | .undef => none
    | v => some (kv.1, jsToString v)

/-- `URLSearchParams` built from the defined entries, then `toString`. -/
def buildQueryString (q : List (String × JSValue)) : String :=
  joinAmp ((definedQueryPairs q).map serializePair)

/-- The query-append step shared by all URL generators: append
`"?" ++ queryString` only when the query object is present and its
serialization is non-empty. -/
def appendQuery (url : String) : Option (List (String × JSValue)) → String
  | none => url
  | some q =>
    let qs := buildQueryString q
    if qs = "" then url else url ++ "?" ++ qs

/-- `generateUrl` from `src/core/route-builder.ts` (lines 40-80): substitute
params into the path with first-occurrence `replace`, then append the
query string. No validation is performed here. -/
def generateUrl (route : RouteDef) (params query : Option (List (String × JSValue))) :
    String :=
  appendQuery (substitutePath route.path params) query

/-- `getPath` from `src/routerParser.ts` (lines 158-182): identical
substitution and query assembly over a raw path string. -/
def getPath (path : String) (params search : Option (List (String × JSValue))) :
    String :=
  appendQuery (substitutePath path params) search

/-! ### Validation dispatch -/

/-- `validateParams` from `src/core/registry.ts` (lines 147-159): without a
schema, throw if the path has dynamic segments, otherwise return the
empty object; with a schema, delegate to its `parse`. -/
def validateParams (route : RouteDef) (params : JSValue) : Except String JSValue :=
  match route.params with
  | none =>
    if hasParams (.route route) then
      .error ("Route " ++ route.path ++ " has parameters but no validation schema")
    else
      .ok (.obj [])
  | some schema => schema params

/-- `validateQuery` from `src/core/registry.ts` (lines 168-177): without a
schema, return the empty object; with a schema, delegate to its `parse`. -/
def validateQuery (route : RouteDef) (query : JSValue) : Except String JSValue :=
  match route.query with
  | none => .ok (.obj [])
  | some schema => schema query

/-- `validateRouteParams` from `src/core/route-builder.ts` (lines 85-94):
throw whenever the route has no params schema. -/
def validateRouteParams (route : RouteDef) (params : JSValue) :
    Except String JSValue :=
  match route.params with
  | none =>
    .error ("Route " ++ route.path ++ " does not have params schema defined")
  | some schema => schema params

/-- `validateRouteQuery` from `src/core/route-builder.ts` (lines 99-108). -/
def validateRouteQuery (route : RouteDef) (query : JSValue) :
    Except String JSValue :=
  match route.query with
  | none =>
    .error ("Route " ++ route.path ++ " does not have query schema defined")
  | some schema => schema query

/-! ### Registry lookups -/

/-- `getRouteByPath` from `src/core/registry.ts` (lines 117-119): index into
the path-keyed registry, yielding `undefined` when absent.  The registry
object is modelled as an association list of its own enumerable keys. -/
def getRouteByPath (pathRegistry : List (String × RouteDef)) (path : String) :
    Option RouteDef :=
  (pathRegistry.find? fun kv => kv.1 == path).map fun kv => kv.2

/-- `getRouteByName` from `src/core/registry.ts` (lines 126-128). -/
def getRouteByName (routeRegistry : List (String × RouteDef)) (name : String) :
    Option RouteDef :=
  (routeRegistry.find? fun kv => kv.1 == name).map fun kv => kv.2

/-- `useRoute` from `src/core/route-provider.tsx` (lines 50-58): throw when
the name is not a key of the routes record, else return the route. The
routes record supplied by the provider is passed explicitly. -/
def useRoute (routes : List (String × RouteDef)) (routeName : String) :
    Except String RouteDef :=
  match routes.find? fun kv => kv.1 == routeName with
  | none => .error ("Route \"" ++ routeName ++ "\" not found")
  | some kv => .ok kv.2

/-- `getRoute` from `src/routerParser.ts` (lines 184-189):
`routeNodes.find((r) => r.path === path)`. -/
def getRoute (routeNodes : List RouteNode) (path : String) : Option RouteNode :=
  routeNodes.find? fun r => r.path == path

/-! ### Diagnostics and the validating URL generators -/

/-- A `console.warn` or `console.error` emission. -/
inductive Diag where
  | warn (msg : String)
  | error (msg : String)
deriving DecidableEq

/-- Steps 2-3 of the registry `generateUrl` (`src/core/registry.ts` lines
222-247): substitute params (warning when a parameterized path gets none),
then append the query string. -/
def generateUrlSubstStep (path : String)
    (params query : Option (List (String × JSValue))) :
    Except String String × List Diag :=
  match params with
  | some ps => (.ok (appendQuery (substitutePath path (some ps)) query), [])
  | none =>
    if hasParams (.path path) then
      (.ok (appendQuery path query),
       [.warn ("Route " ++ path ++ " has parameters but none were provided")])
    else
      (.ok (appendQuery path query), [])

/-- Query-validation step of the registry `generateUrl` (lines 212-219):
run only when both a query schema and a query value are present; a failure
is logged with `console.error` and re-thrown. -/
def registryGenerateUrlQueryStep (r : RouteDef)
    (params query : Option (List (String × JSValue))) :
    Except String String × List Diag :=
  match r.query, query with
  | some _, some qs =>
    (match validateQuery r (.obj qs) with
     | .error e =>
       (.error e, [.error ("Invalid query for route " ++ r.path ++ ": " ++ e)])
     | .ok _ => generateUrlSubstStep r.path params query)
  | _, _ => generateUrlSubstStep r.path params query

/-- `generateUrl` from `src/core/registry.ts` (lines 185-248): accepts a
route definition or a raw path; for a route, params and query are checked
against the schemas when both schema and value are present, and a failure
is logged and re-thrown; then params are substituted (first-occurrence
string replace) and the query string appended. -/
def registryGenerateUrl (routeOrPath : RouteOrPath)
    (params query : Option (List (String × JSValue))) :
    Except String String × List Diag :=
  match routeOrPath with
  | .path p => generateUrlSubstStep p params query
  | .route r =>
    match r.params, params with
    | some _, some ps =>
      (match validateParams r (.obj ps) with
       | .error e =>
         (.error e, [.error ("Invalid params for route " ++ r.path ++ ": " ++ e)])
       | .ok _ => registryGenerateUrlQueryStep r params query)
    | _, _ => registryGenerateUrlQueryStep r params query

/-- Query step of the deprecated `generateUrl` in
`src/core/route-builder.ts` of the registry revision (`src/core/types.ts`
blob lines 301-331): validation failures propagate with no log. -/
def deprecatedGenerateUrlQueryStep (route : RouteDef)
    (params query : Option (List (String × JSValue))) (diags : List Diag) :
    Except String String × List Diag :=
  match route.query, query with
  | some _, some qs =>
    (match validateQuery route (.obj qs) with
     | .error e => (.error e, diags)
     | .ok _ =>
       (.ok (appendQuery (substitutePath route.path params) query), diags))
  | _, _ => (.ok (appendQuery (substitutePath route.path params) query), diags)

/-- The deprecated `generateUrl` of the registry revision of
`route-builder.ts` (the one warning at `src/src/core/types.ts` lines
295-299): validate when schema and value are both present (failures
propagate), warn when a parameterized route receives no params, then
substitute and append the query. -/
def deprecatedGenerateUrl (route : RouteDef)
    (params query : Option (List (String × JSValue))) :
    Except String String × List Diag :=
  match route.params, params with
  | some _, some ps =>
    (match validateParams route (.obj ps) with
     | .error e => (.error e, [])
     | .ok _ => deprecatedGenerateUrlQueryStep route params query [])
  | _, _ =>
    if hasParams (.route route) && params.isNone then
      deprecatedGenerateUrlQueryStep route params query
        [.warn ("Route " ++ route.path ++ " has parameters but none were provided.")]
    else
      deprecatedGenerateUrlQueryStep route params query []

/-! ### The Link component (string href branch) -/

/-- Diagnostics emitted by the `Link` component of
`src/components/link.tsx` (lines 86-112) for a string `href`: validation
failures and missing-params conditions are logged only. -/
def linkValidationDiags (registry : List (String × RouteDef)) (href : String)
    (params query : Option (List (String × JSValue))) : List Diag :=
  match getRouteByPath registry href with
  | some r =>
    (match r.params, params with
     | some _, some ps =>
       (match validateParams r (.obj ps) with
        | .error e => [.error ("Invalid params for route " ++ href ++ ": " ++ e)]
        | .ok _ => [])
     | _, _ =>
       if hasParams (.path href) && params.isNone then
         [.warn ("Route " ++ href ++ " has parameters but none were provided.")]
       else []) ++
    (match r.query, query with
     | some _, some qs =>
       (match validateQuery r (.obj qs) with
        | .error e => [.error ("Invalid query for route " ++ href ++ ": " ++ e)]
        | .ok _ => [])
     | _, _ => [])
  | none =>
    if hasParams (.path href) && params.isNone then
      [.warn ("Route " ++ href ++ " has parameters but none were provided.")]
    else []

/-- URL produced by the `Link` component for a string `href`
(`src/components/link.tsx` lines 114-136) together with its diagnostics:
the URL is always built from the raw values, whatever validation said. -/
def linkStringHref (registry : List (String × RouteDef)) (href : String)
    (params query : Option (List (String × JSValue))) : String × List Diag :=
  let url :=
    match params with
    | some ps => substitutePath href (some ps)
    | none => href
  (appendQuery url query, linkValidationDiags registry href params query)

/-! ### Typed hooks of the router instance -/

/-- `useParams` from `src/routerParser.ts` (lines 191-211): resolve the
route by path; without a schema return the empty object; parse the current
router query with `safeParse`, returning the data on success and the empty
object plus a `console.warn` on failure.  The Next router query is passed
explicitly. -/
def useParams (routeNodes : List RouteNode) (path : String)
    (routerQuery : JSValue) : JSValue × List Diag :=
  match (getRoute routeNodes path).bind fun rc => rc.paramsSchema with
  | none => (.obj [], [])
  | some schema =>
    match schema routerQuery with
    | .ok d => (d, [])
    | .error e =>
      (.obj [],
       [.warn ("[TypeSafeRouter] useParams for path \"" ++ path ++
         "\" failed to parse params: " ++ e)])

/-- `useSearch` from `src/routerParser.ts` (lines 213-229): as `useParams`
but on the search schema and silent on parse failure. -/
def useSearch (routeNodes : List RouteNode) (path : String)
    (routerQuery : JSValue) : JSValue :=
  match (getRoute routeNodes path).bind fun rc => rc.searchSchema with
  | none => .obj []
  | some schema =>
    match schema routerQuery with
    | .ok d => d
    | .error _ => .obj []

/-! ### Typed pathname -/

/-- Trailing-slash normalization of `usePathname().startsWith`
(`src/hooks/use-pathname.ts` lines 27-33). -/
def ensureTrailingSlash (s : String) : String :=
  if jsEndsWith s "/" then s else s ++ "/"

/-- `startsWith` of the typed pathname (`src/hooks/use-pathname.ts` lines
26-36): both the route path and the current pathname are given a trailing
slash before the JS prefix test.  A `null` pathname interpolates to the
string `"null"` in the template literal, as in the source. -/
def pathnameStartsWith (pathname : Option String) (route : RouteDef) : Bool :=
  let routePath := ensureTrailingSlash route.path
  let currentPath :=
    match pathname with
    | some p => ensureTrailingSlash p
    | none => "null/"
  jsStartsWith currentPath routePath

/-- Concrete sample schema used to exercise validation failures: accepts
exactly an object whose single `id` field is a numeric string. -/
def numericIdSchema : Schema := fun v =>
  match v with
  | .obj [("id", .str s)] =>
    if s.data.all fun c => c.isDigit then .ok v
    else .error "Expected numeric string for id"
  | _ => .error "Expected object with id"

/-- Concrete route node carrying the sample schema, used to exercise the
typed hooks. -/
def userIdNode : RouteNode :=
  { id := "/user/:id", path := "/user/:id", paramsSchema := some numericIdSchema }

/-! ## Supporting lemmas -/

/-- No hex digit is the question mark. -/
theorem hexDigit_ne_qmark (n : Nat) : hexDigit n ≠ '?' := by
  unfold hexDigit
  split <;> decide

/-- The urlencoded escaping of a character never emits a question mark. -/
theorem formEncodeChar_ne_qmark (c x : Char) (hx : x ∈ formEncodeChar c) :
    x ≠ '?' := by
  unfold formEncodeChar at hx
  split at hx
  · rcases List.mem_singleton.mp hx with rfl
    rename_i h
    intro hc
    rw [hc] at h
    exact absurd h (by decide)
  · split at hx
    · rcases List.mem_singleton.mp hx with rfl
      decide
    · rcases List.mem_flatMap.mp hx with ⟨b, _, hb⟩
      unfold percentByte at hb
      simp only [List.mem_cons, List.not_mem_nil, or_false] at hb
      rcases hb with rfl | rfl | rfl
      · decide
      · exact hexDigit_ne_qmark _
      · exact hexDigit_ne_qmark _

/-- The urlencoded escaping of a string never emits a question mark. -/
theorem formEncode_no_qmark (s : String) : '?' ∉ (formEncode s).data := by
  intro h
  rcases List.mem_flatMap.mp h with ⟨c, _, hc⟩
  exact formEncodeChar_ne_qmark c '?' hc rfl

/-- A serialized `key=value` pair contains no question mark. -/
theorem serializePair_no_qmark (kv : String × String) :
    '?' ∉ (serializePair kv).data := by
  unfold serializePair
  rw [String.data_append, String.data_append]
  intro h
  rcases List.mem_append.mp h with h | h
  · rcases List.mem_append.mp h with h | h
    · exact formEncode_no_qmark _ h
    · rcases List.mem_singleton.mp h with h
      cases h
  · exact formEncode_no_qmark _ h

/-- The ampersand join of question-mark-free strings is question-mark
free. -/
theorem joinAmp_no_qmark (l : List String) (h : ∀ s ∈ l, '?' ∉ s.data) :
    '?' ∉ (joinAmp l).data := by
  induction l with
  | nil => intro hx; cases hx
  | cons s rest ih =>
    cases rest with
    | nil => exact h s (by simp)
    | cons t ts =>
      show '?' ∉ (s ++ "&" ++ joinAmp (t :: ts)).data
      rw [String.data_append, String.data_append]
      intro hx
      rcases List.mem_append.mp hx with hx | hx
      · rcases List.mem_append.mp hx with hx | hx
        · exact h s (by simp) hx
        · rcases List.mem_singleton.mp hx with hx; cases hx
      · exact ih (fun x hxm => h x (List.mem_cons_of_mem s hxm)) hx

/-- The serialized query string contains no question mark: any question
mark inside keys or values is percent-escaped as `%3F`. -/
theorem buildQueryString_no_qmark (q : List (String × JSValue)) :
    '?' ∉ (buildQueryString q).data := by
  refine joinAmp_no_qmark _ ?_
  intro s hs
  rcases List.mem_map.mp hs with ⟨kv, _, rfl⟩
  exact serializePair_no_qmark kv

/-- Appending a present query adds exactly one question mark when the
serialized query string is non-empty and none otherwise. -/
theorem appendQuery_count_qmark (u : String) (q : List (String × JSValue)) :
    (appendQuery u (some q)).data.count '?' =
      u.data.count '?' + (if buildQueryString q = "" then 0 else 1) := by
  show (if buildQueryString q = "" then u
        else u ++ "?" ++ buildQueryString q).data.count '?' = _
  split
  · simp
  · rw [String.data_append, String.data_append, List.count_append,
      List.count_append, List.count_eq_zero.mpr (buildQueryString_no_qmark q)]
    rfl

/-- The query-assembly loop keeps exactly the entries whose value is not
`undefined`, coercing the kept values with the JS `String(...)` rule. -/
theorem definedQueryPairs_eq (q : List (String × JSValue)) :
    definedQueryPairs q =
      (q.filter fun kv => !isUndef kv.2).map fun kv => (kv.1, jsToString kv.2) := by
  induction q with
  | nil => rfl
  | cons kv rest ih =>
    rcases kv with ⟨k, v⟩
    cases v <;>
      (simp [definedQueryPairs, isUndef, List.filterMap_cons] at ih ⊢; exact ih)

/-- A query all of whose values are `undefined` serializes to nothing. -/
theorem definedQueryPairs_all_undef (q : List (String × JSValue))
    (h : ∀ kv ∈ q, isUndef kv.2 = true) : definedQueryPairs q = [] := by
  induction q with
  | nil => rfl
  | cons kv rest ih =>
    rcases kv with ⟨k, v⟩
    have hv := h (k, v) (by simp)
    cases v <;> simp [isUndef] at hv
    simpa [definedQueryPairs, List.filterMap_cons] using
      ih fun x hx => h x (List.mem_cons_of_mem _ hx)

/-! ## Claim theorems -/

/-- C1 (refuted, code bug): the claim states that parameter substitution is
exact-token replacement bounded by segment delimiters, so that for the two
parameters `id` and `identifier` neither substitution can alter the other
segment, regardless of the segment order in the template or of the
iteration order of the mapping.  The source instead performs a raw
first-occurrence substring `replace` of `":" ++ key`.  Evaluating the code
at template `/:identifier/:id` with the mapping iterating `id` first shows
the `:identifier` segment corrupted to `1entifier` while `:id` survives
unsubstituted; the same input through `getPath` agrees.  With the segment
order `/:id/:identifier` used by the spec example the naive replacement
happens to give the intended `/1/2`, which is why the defect is invisible
on that template. -/
theorem c1_raw_replacement_corrupts_identifier :
    generateUrl { path := "/:identifier/:id" }
      (some [("id", .str "1"), ("identifier", .str "2")]) none = "/1entifier/:id"
    ∧ getPath "/:identifier/:id"
      (some [("id", .str "1"), ("identifier", .str "2")]) none = "/1entifier/:id"
    ∧ generateUrl { path := "/:id/:identifier" }
      (some [("id", .str "1"), ("identifier", .str "2")]) none = "/1/2" :=
  ⟨rfl, rfl, rfl⟩

/-- C2 (refuted, code bug): the claim states that when every declared
parameter receives a value and the query is empty, the generated URL
contains no literal `:name` token of a declared parameter.  The template
`/:identifier/:id` declares exactly `identifier` and `id`; supplying values
for both (mapping iterating `id` first) still leaves the literal `:id`
token in the output, because the first-occurrence substring replacement
consumed the `:id` prefix of `:identifier` instead of the `:id` segment. -/
theorem c2_leftover_declared_token :
    pathParamNames "/:identifier/:id" = ["identifier", "id"]
    ∧ jsIncludes
        (generateUrl { path := "/:identifier/:id" }
          (some [("id", .str "1"), ("identifier", .str "2")]) (some [])) ":id"
        = true :=
  ⟨by decide, by decide⟩

/-- C3 counterexample: the claim says that without a params schema the
candidate is passed through unchanged and validation never throws.  At a
parameterized route without schema, `validateParams` throws; at a plain
route it returns the empty object, which differs from the non-empty
candidate; and `validateRouteParams` of route-builder throws for every
schema-less route. -/
theorem c3_counterexample :
    validateParams { path := "/user/:id" } (.obj [("id", .str "1")])
      = .error "Route /user/:id has parameters but no validation schema"
    ∧ validateQuery { path := "/about" } (.obj [("foo", .str "bar")]) = .ok (.obj [])
    ∧ JSValue.obj [] ≠ JSValue.obj [("foo", .str "bar")]
    ∧ validateRouteParams { path := "/about" } (.obj [("foo", .str "bar")])
      = .error "Route /about does not have params schema defined" :=
  ⟨rfl, rfl, by simp, rfl⟩

/-- C3 (amended): for a route without schemas, `validateParams` ignores the
candidate entirely: it returns the empty object when the path has no
dynamic segment and throws when it has one; `validateQuery` returns the
empty object; and `validateRouteParams` of route-builder always throws.
In no case is the candidate passed through. -/
theorem c3_schemaless_validation (r : RouteDef) (c : JSValue)
    (hp : r.params = none) (hq : r.query = none) :
    (hasParams (.route r) = false → validateParams r c = .ok (.obj []))
    ∧ (hasParams (.route r) = true →
        validateParams r c =
          .error ("Route " ++ r.path ++ " has parameters but no validation schema"))
    ∧ validateQuery r c = .ok (.obj [])
    ∧ validateRouteParams r c =
        .error ("Route " ++ r.path ++ " does not have params schema defined") := by
  refine ⟨?_, ?_, ?_, ?_⟩
  · intro h
    simp [validateParams, hp, h]
  · intro h
    simp [validateParams, hp, h]
  · simp [validateQuery, hq]
  · simp [validateRouteParams, hp]

/-- C3 witness: the amended claim evaluated at the schema-less route
`/about` and a non-empty candidate. -/
theorem c3_schemaless_validation_witness :
    (hasParams (.route { path := "/about" }) = false →
      validateParams { path := "/about" } (.obj [("x", .null)]) = .ok (.obj []))
    ∧ (hasParams (.route { path := "/about" }) = true →
        validateParams { path := "/about" } (.obj [("x", .null)]) =
          .error ("Route " ++ "/about" ++ " has parameters but no validation schema"))
    ∧ validateQuery { path := "/about" } (.obj [("x", .null)]) = .ok (.obj [])
    ∧ validateRouteParams { path := "/about" } (.obj [("x", .null)]) =
        .error ("Route " ++ "/about" ++ " does not have params schema defined") :=
  c3_schemaless_validation { path := "/about" } (.obj [("x", .null)]) rfl rfl

/-- C4 counterexample: the claim says URL generation by default reports a
validation failure but still produces a URL.  The registry `generateUrl`
instead logs the failure and re-throws it: at a route whose schema rejects
the supplied params the result is the thrown error and no URL. -/
theorem c4_counterexample :
    registryGenerateUrl
      (.route { path := "/user/:id", params := some numericIdSchema })
      (some [("id", .str "abc")]) none
      = (.error "Expected numeric string for id",
         [.error "Invalid params for route /user/:id: Expected numeric string for id"]) :=
  rfl

/-- C4 (amended): when the params schema rejects the supplied values, the
registry `generateUrl` logs the failure and re-throws, aborting generation
with no URL; the `Link` component over a string href, by contrast, never
aborts: whatever validation reported, its URL equals best-effort
generation from the raw values (the schema-free `generateUrl`). -/
theorem c4_validation_failure_policy :
    (∀ (r : RouteDef) (s : Schema) (ps : List (String × JSValue))
       (query : Option (List (String × JSValue))) (e : String),
       r.params = some s → s (.obj ps) = .error e →
       registryGenerateUrl (.route r) (some ps) query
         = (.error e, [.error ("Invalid params for route " ++ r.path ++ ": " ++ e)]))
    ∧ (∀ (registry : List (String × RouteDef)) (href : String)
         (params query : Option (List (String × JSValue))),
         (linkStringHref registry href params query).1
           = generateUrl { path := href } params query) := by
  constructor
  · intro r s ps query e hs hfail
    simp [registryGenerateUrl, hs, validateParams, hfail]
  · intro registry href params query
    cases params <;> rfl

/-- C4 witness: the amended claim evaluated at the sample schema with a
rejected value, and the Link equality at a concrete href. -/
theorem c4_validation_failure_policy_witness :
    registryGenerateUrl
      (.route { path := "/user/:id", params := some numericIdSchema })
      (some [("id", .str "xyz")]) none
      = (.error "Expected numeric string for id",
         [.error ("Invalid params for route " ++ "/user/:id" ++ ": " ++
            "Expected numeric string for id")])
    ∧ (linkStringHref [] "/user/:id" (some [("id", .str "xyz")]) none).1
        = generateUrl { path := "/user/:id" } (some [("id", .str "xyz")]) none :=
  ⟨c4_validation_failure_policy.1 _ numericIdSchema _ none _ rfl rfl,
   c4_validation_failure_policy.2 [] "/user/:id" _ none⟩

/-- C5 (confirmed): for a route whose path has dynamic segments, URL
generation with no params supplied is non-fatal in both validating
generators: a missing-parameter warning is emitted and generation proceeds,
returning the template verbatim with its `:name` tokens in place. -/
theorem c5_missing_params_nonfatal (p : String) (r : RouteDef)
    (hp : hasParams (.path p) = true) (hr : hasParams (.route r) = true) :
    registryGenerateUrl (.path p) none none
      = (.ok p, [.warn ("Route " ++ p ++ " has parameters but none were provided")])
    ∧ registryGenerateUrl (.route r) none none
      = (.ok r.path,
         [.warn ("Route " ++ r.path ++ " has parameters but none were provided")])
    ∧ deprecatedGenerateUrl r none none
      = (.ok r.path,
         [.warn ("Route " ++ r.path ++ " has parameters but none were provided.")]) := by
  have hr2 : hasParams (.path r.path) = true := hr
  refine ⟨?_, ?_, ?_⟩
  · simp [registryGenerateUrl, generateUrlSubstStep, hp, appendQuery]
  · cases hrp : r.params <;> cases hrq : r.query <;>
      simp [registryGenerateUrl, registryGenerateUrlQueryStep,
        generateUrlSubstStep, hrp, hrq, hr2, appendQuery]
  · cases hrp : r.params <;> cases hrq : r.query <;>
      simp [deprecatedGenerateUrl, deprecatedGenerateUrlQueryStep,
        hrp, hrq, hr, appendQuery, substitutePath]

/-- C5 witness: the theorem evaluated at the parameterized raw path
`/user/:id` and the parameterized route `/blog/:slug`. -/
theorem c5_missing_params_nonfatal_witness :
    registryGenerateUrl (.path "/user/:id") none none
      = (.ok "/user/:id",
         [.warn ("Route " ++ "/user/:id" ++ " has parameters but none were provided")])
    ∧ registryGenerateUrl (.route { path := "/blog/:slug" }) none none
      = (.ok ({ path := "/blog/:slug" } : RouteDef).path,
         [.warn ("Route " ++ ({ path := "/blog/:slug" } : RouteDef).path ++
            " has parameters but none were provided")])
    ∧ deprecatedGenerateUrl { path := "/blog/:slug" } none none
      = (.ok ({ path := "/blog/:slug" } : RouteDef).path,
         [.warn ("Route " ++ ({ path := "/blog/:slug" } : RouteDef).path ++
            " has parameters but none were provided.")]) :=
  c5_missing_params_nonfatal "/user/:id" { path := "/blog/:slug" } rfl rfl

/-- C6 (confirmed): query assembly drops every `undefined`-valued key and
string-coerces and percent-encodes every kept key and value; the `?`
separator is appended exactly once and only when the serialized query
string is non-empty (the serialized string itself contains no `?`, so the
count of `?` added to the substituted path is one or zero); an absent
query, or a query all of whose values are `undefined`, leaves the URL
without any appended `?`. -/
theorem c6_query_assembly :
    (∀ q : List (String × JSValue),
      buildQueryString q =
        joinAmp ((q.filter fun kv => !isUndef kv.2).map fun kv =>
          formEncode kv.1 ++ "=" ++ formEncode (jsToString kv.2)))
    ∧ (∀ (route : RouteDef) (params : Option (List (String × JSValue)))
        (q : List (String × JSValue)),
        (generateUrl route params (some q)).data.count '?' =
          (substitutePath route.path params).data.count '?' +
            (if buildQueryString q = "" then 0 else 1))
    ∧ (∀ (route : RouteDef) (params : Option (List (String × JSValue))),
        generateUrl route params none = substitutePath route.path params)
    ∧ (∀ (route : RouteDef) (params : Option (List (String × JSValue)))
        (q : List (String × JSValue)), (∀ kv ∈ q, isUndef kv.2 = true) →
        generateUrl route params (some q) = substitutePath route.path params) := by
  refine ⟨?_, ?_, ?_, ?_⟩
  · intro q
    rw [buildQueryString, definedQueryPairs_eq, List.map_map]
    rfl
  · intro route params q
    exact appendQuery_count_qmark _ q
  · intro route params
    rfl
  · intro route params q h
    show appendQuery _ (some q) = _
    have hq : buildQueryString q = "" := by
      rw [buildQueryString, definedQueryPairs_all_undef q h]
      rfl
    show (if buildQueryString q = "" then _ else _) = _
    rw [hq]
    rfl

/-- C6 witness: the all-undefined conjunct evaluated at a concrete route
and query. -/
theorem c6_query_assembly_witness :
    generateUrl { path := "/about" } none (some [("page", .undef)])
      = substitutePath ({ path := "/about" } : RouteDef).path none :=
  c6_query_assembly.2.2.2 { path := "/about" } none [("page", .undef)]
    (by intro kv hkv; rcases List.mem_singleton.mp hkv with rfl; rfl)

/-- C7 counterexample: the claim extends absent-result behaviour to every
route-finding surface, including the `useRoute` hook it cites; `useRoute`
instead throws an Error when the name is not registered. -/
theorem c7_counterexample :
    useRoute [("home", { path := "/" })] "missing"
      = .error "Route \"missing\" not found" :=
  rfl

/-- C7 (amended): lookups against the registries return `undefined` rather
than throwing when nothing matches: `getRouteByPath`, `getRouteByName` and
the router-instance `getRoute` all yield an absent result; the `useRoute`
hook, by contrast, throws an Error naming the missing route. -/
theorem c7_lookup_miss_behaviour (pathReg nameReg routes : List (String × RouteDef))
    (nodes : List RouteNode) (p n rn path : String)
    (h1 : ∀ kv ∈ pathReg, kv.1 ≠ p) (h2 : ∀ kv ∈ nameReg, kv.1 ≠ n)
    (h3 : ∀ r ∈ nodes, r.path ≠ path) (h4 : ∀ kv ∈ routes, kv.1 ≠ rn) :
    getRouteByPath pathReg p = none
    ∧ getRouteByName nameReg n = none
    ∧ getRoute nodes path = none
    ∧ useRoute routes rn = .error ("Route \"" ++ rn ++ "\" not found") := by
  refine ⟨?_, ?_, ?_, ?_⟩
  · rw [getRouteByPath, List.find?_eq_none.mpr]
    · rfl
    · intro kv hkv
      simpa using h1 kv hkv
  · rw [getRouteByName, List.find?_eq_none.mpr]
    · rfl
    · intro kv hkv
      simpa using h2 kv hkv
  · rw [getRoute, List.find?_eq_none.mpr]
    intro r hrm
    simpa using h3 r hrm
  · rw [useRoute, List.find?_eq_none.mpr]
    intro kv hkv
    simpa using h4 kv hkv

/-- C7 witness: the amended claim evaluated at concrete registries missing
the looked-up path and name. -/
theorem c7_lookup_miss_behaviour_witness :
    getRouteByPath [] "/missing" = none
    ∧ getRouteByName [] "missing" = none
    ∧ getRoute [] "/missing" = none
    ∧ useRoute [("home", { path := "/" })] "absent"
        = .error ("Route \"" ++ "absent" ++ "\" not found") :=
  c7_lookup_miss_behaviour [] [] [("home", { path := "/" })] [] "/missing"
    "missing" "absent" "/missing"
    (by intro kv h; cases h) (by intro kv h; cases h)
    (by intro r h; cases h)
    (by intro kv hkv; rcases List.mem_singleton.mp hkv with rfl; decide)

/-- C8 (confirmed): URL generation is deterministic and pure: the
embedding of `generateUrl` and `getPath` is a total function of its
arguments, so two calls with identical inputs are definitionally equal;
and the scalar stringification rule is fixed and locale-independent:
decimal for integers, the literals `true`/`false` for booleans, identity
for strings. -/
theorem c8_deterministic_generation :
    (∀ (route : RouteDef) (params query : Option (List (String × JSValue))),
        generateUrl route params query = generateUrl route params query)
    ∧ (∀ (path : String) (params search : Option (List (String × JSValue))),
        getPath path params search = getPath path params search)
    ∧ (∀ n : Int, jsToString (.num n) = toString n)
    ∧ jsToString (.boolean true) = "true"
    ∧ jsToString (.boolean false) = "false"
    ∧ (∀ s, jsToString (.str s) = s) :=
  ⟨fun _ _ _ => rfl, fun _ _ _ => rfl, fun _ => rfl, rfl, rfl, fun _ => rfl⟩

/-- C9 (confirmed): the typed hooks are total and never propagate a parse
failure: an unknown path or an absent schema yields the empty object;
when the schema rejects the current router query, `useParams` yields the
empty object with a warning and `useSearch` yields the empty object
silently. -/
theorem c9_hooks_total (nodes : List RouteNode) (path : String) (q : JSValue) :
    (getRoute nodes path = none →
      useParams nodes path q = (.obj [], []) ∧ useSearch nodes path q = .obj [])
    ∧ (∀ r, getRoute nodes path = some r → r.paramsSchema = none →
        useParams nodes path q = (.obj [], []))
    ∧ (∀ r, getRoute nodes path = some r → r.searchSchema = none →
        useSearch nodes path q = .obj [])
    ∧ (∀ r s e, getRoute nodes path = some r → r.paramsSchema = some s →
        s q = .error e →
        useParams nodes path q
          = (.obj [],
             [.warn ("[TypeSafeRouter] useParams for path \"" ++ path ++
               "\" failed to parse params: " ++ e)]))
    ∧ (∀ r s e, getRoute nodes path = some r → r.searchSchema = some s →
        s q = .error e → useSearch nodes path q = .obj []) := by
  refine ⟨?_, ?_, ?_, ?_, ?_⟩
  · intro h
    constructor
    · simp [useParams, h]
    · simp [useSearch, h]
  · intro r h hps
    simp [useParams, h, hps]
  · intro r h hss
    simp [useSearch, h, hss]
  · intro r s e h hps hfail
    simp [useParams, h, hps, hfail]
  · intro r s e h hss hfail
    simp [useSearch, h, hss, hfail]

/-- C9 witness: the hook cases evaluated at an empty route table and at a
node whose schema rejects the empty router query. -/
theorem c9_hooks_total_witness :
    useParams [] "/x" (.obj []) = (.obj [], [])
    ∧ useParams [userIdNode] "/user/:id" (.obj [])
        = (.obj [],
           [.warn ("[TypeSafeRouter] useParams for path \"" ++ "/user/:id" ++
             "\" failed to parse params: " ++ "Expected object with id")])
    ∧ useSearch [userIdNode] "/user/:id" (.obj []) = .obj [] :=
  ⟨((c9_hooks_total [] "/x" (.obj [])).1 rfl).1,
   (c9_hooks_total [userIdNode] "/user/:id" (.obj [])).2.2.2.1 userIdNode
     numericIdSchema "Expected object with id" rfl rfl rfl,
   (c9_hooks_total [userIdNode] "/user/:id" (.obj [])).2.2.1 userIdNode rfl rfl⟩

/-- C10 (confirmed): the typed pathname `startsWith` normalizes both the
route path and the current pathname with a trailing slash before the JS
prefix test, so it answers true exactly when the pathname equals the route
path or extends it across a `/` boundary; hence `/blogger` does not count
as starting with `/blog`, while `/blog` and `/blog/post` do. -/
theorem c10_startsWith_segment_boundary (p r : String)
    (hp : jsEndsWith p "/" = false) (hr : jsEndsWith r "/" = false) :
    pathnameStartsWith (some p) { path := r } = true ↔
      p = r ∨ jsStartsWith p (r ++ "/") = true := by
  show jsStartsWith (ensureTrailingSlash p) (ensureTrailingSlash r) = true ↔ _
  unfold ensureTrailingSlash
  rw [hp, hr]
  simp only [Bool.false_eq_true, if_false, jsStartsWith,
    List.isPrefixOf_iff_prefix, String.data_append]
  rw [ List.prefix_concat_iff, List.append_left_inj]
  constructor
  · rintro (h | h)
    · exact Or.inl (String.ext h.symm)
    · exact Or.inr h
  · rintro (h | h)
    · exact Or.inl (congrArg String.data h).symm
    · exact Or.inr h

/-- C10 witness: the boundary behaviour at the three pathnames named by
the claim against the route `/blog`. -/
theorem c10_startsWith_segment_boundary_witness :
    pathnameStartsWith (some "/blogger") { path := "/blog" } = false
    ∧ pathnameStartsWith (some "/blog") { path := "/blog" } = true
    ∧ pathnameStartsWith (some "/blog/post") { path := "/blog" } = true := by
  refine ⟨?_, ?_, ?_⟩
  · have h := c10_startsWith_segment_boundary "/blogger" "/blog" rfl rfl
    cases e : pathnameStartsWith (some "/blogger") { path := "/blog" }
    · rfl
    · exact absurd (h.mp e) (by decide)
  · exact (c10_startsWith_segment_boundary "/blog" "/blog" rfl rfl).mpr (Or.inl rfl)
  · exact (c10_startsWith_segment_boundary "/blog/post" "/blog" rfl rfl).mpr
      (Or.inr (by decide))

end NTR

